import Mathlib

/-!
Shallow embedding of the asset-transfer-api core:
`checkLocalTxInput` (local-transfer classifier) and the `RelayToSystem`
XCM type builder set, with the registry / chain-client collaborators
modelled explicitly.  Machine semantics of JavaScript that the code
relies on (truthiness, `parseInt` NaN detection, out-of-bounds index
yielding `undefined`) are embedded via `Option` and explicit `Bool`
helpers.
-/

/-- The closed error taxonomy (`BaseErrorsEnum` in `errors/BaseError`;
the file itself is outside the embedded sources, the variants are those
used by the embedded code plus the spec's closed set). -/
inductive BaseErrorsEnum : Type
  | InvalidInput
  | AssetNotFound
  | UnknownChain
  | UnsupportedRoute
  | LiquidTokenInvalid
deriving DecidableEq, Repr

/-- `BaseError`: a message together with a machine-readable error kind. -/
structure BaseError : Type where
  message : String
  errorType : BaseErrorsEnum
deriving DecidableEq, Repr

/-- Errors a run of the embedded JavaScript can surface: a thrown
`BaseError`, or a runtime `TypeError` from accessing a property of
`undefined`. -/
inductive JsError : Type
  | base : BaseError → JsError
  | typeError : String → JsError
deriving DecidableEq, Repr

/-- `LocalTxType` from the classifier module. -/
inductive LocalTxType : Type
  | Assets
  | Balances
  | ForeignAssets
  | PoolAssets
deriving DecidableEq, Repr

/-- Per-chain topology record (spec §3 `ChainTopologyInfo`): native token
symbols, the local assets table (`assetId key ↦ symbol`), and the known
foreign-asset multi-location keys. -/
structure ChainInfo : Type where
  tokens : List String
  assetsInfo : List (String × String)
  foreignAssetsInfo : List String
deriving DecidableEq, Repr

/-- The registry: `currentRelayRegistry` maps chain ids to topology
records; `chainIdOfSpecName` models `getChainIdBySpecName` (its source
is not under the embedded sources; per spec §4.1 it maps a spec name to
the relay-scoped chain id). -/
structure Registry : Type where
  currentRelayRegistry : List (String × ChainInfo)
  chainIdOfSpecName : String → String

/-- The live chain-client capability (spec §6): each field is one
boundary query the embedded code awaits.  `assetsAsset` is
`api.query.assets.asset` (`none` models an `isNone` response);
`foreignAssetsMultiLocationExists` is the live foreign-asset existence
query; `chainSymbolToId` is the direct chain lookup of a symbol's
integer asset id used by the symbol-resolution escalation;
`checkLiquidTokenValidity` is the external liquidity-pool validity
check, receiving the (possibly undefined) chain record and the
(possibly undefined) asset id. -/
structure ChainClient : Type where
  assetsAsset : String → Option Unit
  foreignAssetsMultiLocationExists : String → Bool
  chainSymbolToId : String → Option String
  checkLiquidTokenValidity : Option ChainInfo → Option String → Except BaseError Unit

/-- JavaScript truthiness of an optional boolean flag. -/
def truthyBool : Option Bool → Bool
  | some b => b
  | none => false

/-- JavaScript truthiness of an optional string: present and non-empty. -/
def truthyStr : Option String → Bool
  | some s => s ≠ ""
  | none => false

/-- `String.prototype.toLowerCase` on the ASCII range, embedded by
structural recursion over the character list so that concrete instances
evaluate. -/
def jsToLower (s : String) : String :=
  ⟨s.data.map Char.toLower⟩

/-- `Number.isNaN(parseInt(s))`: `parseInt` skips leading whitespace and
an optional sign, then needs at least one leading digit; otherwise it
yields `NaN`. -/
def jsParseIntIsNaN (s : String) : Bool :=
  let t := s.dropWhile Char.isWhitespace
  let t := if t.startsWith "+" || t.startsWith "-" then t.drop 1 else t
  match t.data with
  | [] => true
  | c :: _ => !c.isDigit

/-- Modelled from the spec: `foreignAssetMultiLocationIsInRegistry`
(`createXcmTypes/util`, source not among the embedded files).  Per spec
§4.2 step 1 it checks the Registry's foreign-asset table of the current
chain for the given multi-location key; an unknown chain has no table,
so the check is negative. -/
def foreignAssetMultiLocationIsInRegistry (registry : Registry)
    (specName multiLocationStr : String) : Bool :=
  match List.lookup (registry.chainIdOfSpecName specName)
      registry.currentRelayRegistry with
  | some info => info.foreignAssetsInfo.contains multiLocationStr
  | none => false

/-- Modelled from the spec: `getAssetHubAssetId` (`createXcmTypes/util`,
source not among the embedded files).  Per spec §4.2 step 3 it resolves
a symbol to an integer asset id by scanning the Registry's local assets
table for a case-insensitive symbol match, escalating to a direct chain
lookup of the integer id when the Registry does not know the symbol, and
fails with `AssetNotFound` only after both paths are exhausted. -/
def getAssetHubAssetId (client : ChainClient) (registry : Registry)
    (specName symbol : String) : Except BaseError String :=
  match List.lookup (registry.chainIdOfSpecName specName)
      registry.currentRelayRegistry with
  | some info =>
    match info.assetsInfo.find? (fun p => jsToLower p.2 == jsToLower symbol) with
    | some p => .ok p.1
    | none =>
      match client.chainSymbolToId symbol with
      | some id => .ok id
      | none =>
        .error ⟨"assetId " ++ symbol ++ " is not a valid symbol or integer asset id",
          .AssetNotFound⟩
  | none =>
    .error ⟨"assetId " ++ symbol ++ " is not a valid symbol or integer asset id",
      .AssetNotFound⟩

/-- The length-validation error message of `checkLocalTxInput`. -/
def localTxLengthErrMsg : String :=
  "Local transactions must have the `assetIds` input be a length of 1 or 0, and the `amounts` input be a length of 1"

/-- The foreign-asset length-validation error message of `checkLocalTxInput`. -/
def foreignAssetLengthErrMsg : String :=
  "Local foreignAsset transactions must have the `assetIds` input be a length of 1"

/-- Embedding of `checkLocalTxInput`: validates input lengths, then
dispatches on foreign-asset / liquid-token / ordinary local transfer,
mirroring the source branch for branch.  Out-of-bounds `assetIds[0]`
accesses are embedded as `List.head?`; the property accesses
`systemParachainInfo.tokens` / `.assetsInfo` on an unknown chain surface
as a `TypeError`, as they would at runtime. -/
def checkLocalTxInput (client : ChainClient) (assetIds amounts : List String)
    (specName : String) (registry : Registry)
    (isForeignAssetsTransfer isLiquidTokenTransfer : Bool) :
    Except JsError LocalTxType :=
  if assetIds.length > 1 || amounts.length != 1 then
    .error (.base ⟨localTxLengthErrMsg, .InvalidInput⟩)
  else if isForeignAssetsTransfer then
    if assetIds.length == 0 then
      .error (.base ⟨foreignAssetLengthErrMsg, .InvalidInput⟩)
    else
      let multiLocationStr := assetIds.headD ""
      if foreignAssetMultiLocationIsInRegistry registry specName multiLocationStr then
        .ok .ForeignAssets
      else if client.foreignAssetsMultiLocationExists multiLocationStr then
        .ok .ForeignAssets
      else
        .error (.base ⟨"MultiLocation " ++ multiLocationStr ++ " not found",
          .AssetNotFound⟩)
  else if isLiquidTokenTransfer then
    let systemParachainInfo :=
      List.lookup (registry.chainIdOfSpecName specName) registry.currentRelayRegistry
    match client.checkLiquidTokenValidity systemParachainInfo assetIds.head? with
    | .ok _ => .ok .PoolAssets
    | .error e => .error (.base e)
  else
    let systemParachainInfo :=
      List.lookup (registry.chainIdOfSpecName specName) registry.currentRelayRegistry
    match assetIds.head? with
    | none => .ok .Balances
    | some assetId0 =>
      match systemParachainInfo with
      | none => .error (.typeError "Cannot read properties of undefined (reading tokens)")
      | some info =>
        if (info.tokens.find? (fun token => jsToLower token == jsToLower assetId0)).isSome then
          .ok .Balances
        else
          let isNotANumber := jsParseIntIsNaN assetId0
          let resolved : Except BaseError String :=
            if isNotANumber then
              getAssetHubAssetId client registry specName assetId0
            else
              .ok assetId0
          match resolved with
          | .error e => .error (.base e)
          | .ok assetId =>
            if ((info.assetsInfo.map Prod.fst).find?
                (fun asset => jsToLower asset == jsToLower assetId)).isSome then
              .ok .Assets
            else if !isNotANumber then
              match client.assetsAsset assetId with
              | none =>
                .error (.base ⟨"The integer assetId " ++ assetId ++ " was not found.",
                  .AssetNotFound⟩)
              | some _ => .ok .Assets
            else
              .ok .Assets

/-- Interior of a multi-location as the embedded builders construct it:
`Here`, or a single (`X1`) junction. -/
inductive Interior : Type
  | Here
  | X1AccountId32 (network : Option String) (id : String)
  | X1Parachain (paraId : String)
deriving DecidableEq, Repr

/-- A multi-location: `parents` plus an interior. -/
structure MultiLocation : Type where
  parents : Nat
  interior : Interior
deriving DecidableEq, Repr

/-- A versioned XCM value.  The embedded builders construct only `V2`
and `V3` payloads. -/
inductive Versioned (α : Type) : Type
  | V2 : α → Versioned α
  | V3 : α → Versioned α
deriving DecidableEq, Repr

/-- Numeric version tag of a versioned value. -/
def vtag {α : Type} : Versioned α → Nat
  | .V2 _ => 2
  | .V3 _ => 3

/-- Payload of a versioned value. -/
def vpayload {α : Type} : Versioned α → α
  | .V2 a => a
  | .V3 a => a

/-- One fungible multi-asset: the `Fungible` amount (an `undefined`
amount is `none`) and the `Concrete` location id. -/
structure XcmMultiAsset : Type where
  fungible : Option String
  id : MultiLocation
deriving DecidableEq, Repr

/-- The `weightLimit` sub-record of `CreateWeightLimitOpts`. -/
structure WeightLimitFields : Type where
  refTime : Option String
  proofSize : Option String
deriving DecidableEq, Repr

/-- `CreateWeightLimitOpts`: both fields optional. -/
structure CreateWeightLimitOpts : Type where
  isLimited : Option Bool
  weightLimit : Option WeightLimitFields
deriving DecidableEq, Repr

/-- An XCM weight limit value. -/
inductive XcmWeight : Type
  | Limited (refTime proofSize : Option String)
  | Unlimited
deriving DecidableEq, Repr

namespace RelayToSystem

/-- `RelayToSystem.createBeneficiary`: version 2 wraps the account in an
`X1.AccountId32` junction with `network: 'Any'`; every other version
yields the V3 shape without a network field. -/
def createBeneficiary (accountId : String) (xcmVersion : Nat) :
    Versioned MultiLocation :=
  if xcmVersion = 2 then
    .V2 ⟨0, .X1AccountId32 (some "Any") accountId⟩
  else
    .V3 ⟨0, .X1AccountId32 none accountId⟩

/-- `RelayToSystem.createDest`: a single `Parachain` junction, tagged V2
for version 2 and V3 otherwise. -/
def createDest (destId : String) (xcmVersion : Nat) : Versioned MultiLocation :=
  if xcmVersion = 2 then
    .V2 ⟨0, .X1Parachain destId⟩
  else
    .V3 ⟨0, .X1Parachain destId⟩

/-- `RelayToSystem.createAssets`: builds a single multi-asset from
`amounts[0]` (an `undefined` element is `none`) with the `Here`
concrete location, and wraps the one-element list V2 or V3. -/
def createAssets (amounts : List String) (xcmVersion : Nat) :
    Versioned (List XcmMultiAsset) :=
  let multiAssets : List XcmMultiAsset := [⟨amounts.head?, ⟨0, .Here⟩⟩]
  if xcmVersion = 2 then
    .V2 multiAssets
  else
    .V3 multiAssets

/-- `RelayToSystem.createWeightLimit`: `Limited` exactly when
`opts.isLimited && opts.weightLimit?.refTime && opts.weightLimit?.proofSize`
is truthy, else `Unlimited`. -/
def createWeightLimit (opts : CreateWeightLimitOpts) : XcmWeight :=
  if truthyBool opts.isLimited
      && truthyStr (opts.weightLimit.bind WeightLimitFields.refTime)
      && truthyStr (opts.weightLimit.bind WeightLimitFields.proofSize) then
    .Limited (opts.weightLimit.bind WeightLimitFields.refTime)
      (opts.weightLimit.bind WeightLimitFields.proofSize)
  else
    .Unlimited

/-- `RelayToSystem.createFeeAssetItem`: always 0. -/
def createFeeAssetItem : Nat := 0

end RelayToSystem

/-- The run surfaced a thrown `BaseError` of the given kind. -/
def throwsKind (kind : BaseErrorsEnum) : Except JsError LocalTxType → Bool
  | .error (.base e) => e.errorType == kind
  | _ => false

/-- A concrete chain record used to instantiate the classifier theorems:
native token `KSM`, one local asset `1984 ↦ USDT`, one known foreign
multi-location key. -/
def demoInfo : ChainInfo :=
  ⟨["KSM"], [("1984", "USDT")], ["loc1"]⟩

/-- A concrete registry with the single chain `1000 ↦ demoInfo` and every
spec name resolving to chain id `1000`. -/
def demoRegistry : Registry :=
  ⟨[("1000", demoInfo)], fun _ => "1000"⟩

/-- A concrete chain client whose live queries all come back negative and
whose liquidity-pool check accepts. -/
def demoClient : ChainClient :=
  ⟨fun _ => none, fun _ => false, fun _ => none, fun _ _ => .ok ()⟩

/-- C2 counterexample: for `amounts = ["1", "2"]` the asset list built by
`createAssets` has length 1, not 2 — the output does not contain one
descriptor per element of `amounts`. -/
theorem createAssets_not_one_per_amount :
    (vpayload (RelayToSystem.createAssets ["1", "2"] 2)).length = 1 ∧ (1 : Nat) ≠ 2 :=
  ⟨rfl, by decide⟩

/-- C2 (amended): for every list of amounts and every xcmVersion,
`createAssets` returns an asset list containing exactly one fungible
asset descriptor, built from `amounts[0]`, whose concrete location is
`Here` with `parents` 0, regardless of the length of `amounts`. -/
theorem createAssets_single_here_asset (amounts : List String) (xcmVersion : Nat) :
    vpayload (RelayToSystem.createAssets amounts xcmVersion) =
      [⟨amounts.head?, ⟨0, Interior.Here⟩⟩] := by
  unfold RelayToSystem.createAssets
  by_cases h : xcmVersion = 2 <;> simp [h, vpayload]

/-- C3 counterexample: for `xcmVersion = 4` the outputs of
`createBeneficiary`, `createDest` and `createAssets` are tagged V3
(tag 3), not V4 — a different version's tag than the one requested. -/
theorem builders_tag_v3_at_version4 :
    vtag (RelayToSystem.createBeneficiary "acc" 4) = 3
      ∧ vtag (RelayToSystem.createDest "1000" 4) = 3
      ∧ vtag (RelayToSystem.createAssets ["1"] 4) = 3
      ∧ (3 : Nat) ≠ 4 := by
  refine ⟨rfl, rfl, rfl, by decide⟩

/-- C3 (amended): for xcmVersion 2 the outputs of `createBeneficiary`,
`createDest` and `createAssets` are tagged V2; for every other
xcmVersion (3, 4, or anything else) they are tagged V3 — a V4 tag is
never produced. -/
theorem builders_version_tags (accountId destId : String)
    (amounts : List String) (xcmVersion : Nat) :
    vtag (RelayToSystem.createBeneficiary accountId xcmVersion) =
        (if xcmVersion = 2 then 2 else 3)
      ∧ vtag (RelayToSystem.createDest destId xcmVersion) =
        (if xcmVersion = 2 then 2 else 3)
      ∧ vtag (RelayToSystem.createAssets amounts xcmVersion) =
        (if xcmVersion = 2 then 2 else 3) := by
  unfold RelayToSystem.createBeneficiary RelayToSystem.createDest
    RelayToSystem.createAssets
  by_cases h : xcmVersion = 2 <;> simp [h, vtag]

/-- C4: for every accountId, the V2 beneficiary carries
`network = some "Any"` inside its `X1.AccountId32` junction while the V3
beneficiary for the same account has no network field (`none`); the two
location payloads agree on every other component (`parents = 0`, the
junction shape, the account id), so they differ exactly at the network
field. -/
theorem createBeneficiary_v2_v3_network (accountId : String) :
    RelayToSystem.createBeneficiary accountId 2 =
        Versioned.V2 ⟨0, Interior.X1AccountId32 (some "Any") accountId⟩
      ∧ RelayToSystem.createBeneficiary accountId 3 =
        Versioned.V3 ⟨0, Interior.X1AccountId32 none accountId⟩ :=
  ⟨rfl, rfl⟩

/-- C5: `createWeightLimit` returns `Limited{refTime, proofSize}` exactly
when `isLimited` is truthy and both components are supplied (present and
non-empty, the JavaScript truthiness the source tests), with the
returned components the supplied ones; when `isLimited` is set but
either component is missing the result is `Unlimited` — never an
error (the function is total into `XcmWeight`). -/
theorem createWeightLimit_limited_iff (opts : CreateWeightLimitOpts) :
    (∀ rt ps, RelayToSystem.createWeightLimit opts = XcmWeight.Limited rt ps ↔
      (truthyBool opts.isLimited = true
        ∧ truthyStr (opts.weightLimit.bind WeightLimitFields.refTime) = true
        ∧ truthyStr (opts.weightLimit.bind WeightLimitFields.proofSize) = true
        ∧ rt = opts.weightLimit.bind WeightLimitFields.refTime
        ∧ ps = opts.weightLimit.bind WeightLimitFields.proofSize))
    ∧ (opts.weightLimit.bind WeightLimitFields.proofSize = none →
        RelayToSystem.createWeightLimit opts = XcmWeight.Unlimited)
    ∧ (opts.weightLimit.bind WeightLimitFields.refTime = none →
        RelayToSystem.createWeightLimit opts = XcmWeight.Unlimited) := by
  unfold RelayToSystem.createWeightLimit
  refine ⟨fun rt ps => ?_, fun h => ?_, fun h => ?_⟩
  · by_cases h1 : truthyBool opts.isLimited
      <;> by_cases h2 : truthyStr (opts.weightLimit.bind WeightLimitFields.refTime)
      <;> by_cases h3 : truthyStr (opts.weightLimit.bind WeightLimitFields.proofSize)
      <;> simp [h1, h2, h3, eq_comm]
  · simp [h, truthyStr]
  · simp [h, truthyStr]

/-- C5 witness: `isLimited` set with only `refTime` supplied (proofSize
missing) yields `Unlimited`, not an error. -/
theorem createWeightLimit_limited_iff_witness :
    RelayToSystem.createWeightLimit ⟨some true, some ⟨some "100", none⟩⟩ =
      XcmWeight.Unlimited :=
  (createWeightLimit_limited_iff ⟨some true, some ⟨some "100", none⟩⟩).2.1 rfl

/-- C6: for every fixed xcmVersion, `createBeneficiary`, `createDest`
and `createAssets` all carry the same version tag as one another: the
fragments of one request are version-homogeneous. -/
theorem builders_version_homogeneous (accountId destId : String)
    (amounts : List String) (xcmVersion : Nat) :
    vtag (RelayToSystem.createBeneficiary accountId xcmVersion) =
        vtag (RelayToSystem.createDest destId xcmVersion)
      ∧ vtag (RelayToSystem.createDest destId xcmVersion) =
        vtag (RelayToSystem.createAssets amounts xcmVersion) := by
  unfold RelayToSystem.createBeneficiary RelayToSystem.createDest
    RelayToSystem.createAssets
  by_cases h : xcmVersion = 2 <;> simp [h, vtag]

/-- C7: whenever `assetIds` has more than one element or `amounts` does
not have exactly one, `checkLocalTxInput` fails with the `InvalidInput`
length error — for every chain client and registry, so before (and
independently of) any resolution work. -/
theorem checkLocalTxInput_length_invalid (client : ChainClient)
    (assetIds amounts : List String) (specName : String) (registry : Registry)
    (isForeignAssetsTransfer isLiquidTokenTransfer : Bool)
    (h : assetIds.length > 1 ∨ amounts.length ≠ 1) :
    checkLocalTxInput client assetIds amounts specName registry
        isForeignAssetsTransfer isLiquidTokenTransfer =
      .error (.base ⟨localTxLengthErrMsg, .InvalidInput⟩) := by
  have hb : (assetIds.length > 1 || amounts.length != 1) = true := by
    rcases h with h | h <;> simp [h]
  unfold checkLocalTxInput
  simp [hb]

/-- C7 witness: two asset ids are rejected with `InvalidInput`. -/
theorem checkLocalTxInput_length_invalid_witness :
    checkLocalTxInput demoClient ["a", "b"] ["1"] "spec" demoRegistry false false =
      .error (.base ⟨localTxLengthErrMsg, .InvalidInput⟩) :=
  checkLocalTxInput_length_invalid demoClient ["a", "b"] ["1"] "spec"
    demoRegistry false false (Or.inl (by decide))

/-- C9: a non-foreign, non-liquid call whose single assetId matches a
native token of the chain under case-insensitive comparison returns
`Balances`, for every chain client (no assets-table or live-chain
lookup can influence the outcome). -/
theorem checkLocalTxInput_native_token_balances (client : ChainClient)
    (registry : Registry) (specName assetId : String) (amounts : List String)
    (info : ChainInfo)
    (hlen : amounts.length = 1)
    (hinfo : List.lookup (registry.chainIdOfSpecName specName)
        registry.currentRelayRegistry = some info)
    (hnative : (info.tokens.find?
        (fun token => jsToLower token == jsToLower assetId)).isSome = true) :
    checkLocalTxInput client [assetId] amounts specName registry false false =
      .ok .Balances := by
  unfold checkLocalTxInput
  simp [hlen, hinfo, hnative]

/-- C9 witness: `"ksm"` case-insensitively matches the native token
`"KSM"` and classifies as `Balances`. -/
theorem checkLocalTxInput_native_token_balances_witness :
    checkLocalTxInput demoClient ["ksm"] ["1000"] "spec" demoRegistry false false =
      .ok .Balances :=
  checkLocalTxInput_native_token_balances demoClient demoRegistry "spec" "ksm"
    ["1000"] demoInfo rfl rfl (by decide)

/-- C10: with `isForeignAssetsTransfer = false`,
`isLiquidTokenTransfer = true`, empty `assetIds` and a single amount,
the length validation does not reject the input: the liquid-token branch
runs and the out-of-bounds `assetIds[0]` — the `undefined` value,
embedded as `none` — is passed to the liquidity-pool validity check,
whose verdict alone decides the outcome. -/
theorem checkLocalTxInput_liquid_empty_assetIds (client : ChainClient)
    (registry : Registry) (specName : String) (amounts : List String)
    (hlen : amounts.length = 1) :
    checkLocalTxInput client [] amounts specName registry false true =
      (match client.checkLiquidTokenValidity
          (List.lookup (registry.chainIdOfSpecName specName)
            registry.currentRelayRegistry) none with
        | .ok _ => .ok .PoolAssets
        | .error e => .error (.base e)) := by
  unfold checkLocalTxInput
  simp [hlen]

/-- C10 witness: with an accepting liquidity-pool check, the empty
`assetIds` liquid-token call classifies as `PoolAssets` instead of being
rejected for its length. -/
theorem checkLocalTxInput_liquid_empty_assetIds_witness :
    checkLocalTxInput demoClient [] ["1000"] "spec" demoRegistry false true =
      .ok .PoolAssets := by
  rw [checkLocalTxInput_liquid_empty_assetIds demoClient demoRegistry "spec"
      ["1000"] rfl]
  rfl

/-- C8: a foreign-asset call with one assetId consults the Registry's
foreign-asset table first — a hit yields `ForeignAssets` for every chain
client, without the live query being able to change the outcome; on a
miss the live existence query decides: confirmed yields
`ForeignAssets`, otherwise the call fails with `AssetNotFound`. -/
theorem checkLocalTxInput_foreign_resolution (client : ChainClient)
    (registry : Registry) (specName multiLocationStr : String)
    (amounts : List String) (isLiquidTokenTransfer : Bool)
    (hlen : amounts.length = 1) :
    (foreignAssetMultiLocationIsInRegistry registry specName multiLocationStr = true →
      checkLocalTxInput client [multiLocationStr] amounts specName registry
          true isLiquidTokenTransfer = .ok .ForeignAssets)
    ∧ (foreignAssetMultiLocationIsInRegistry registry specName multiLocationStr = false →
        client.foreignAssetsMultiLocationExists multiLocationStr = true →
        checkLocalTxInput client [multiLocationStr] amounts specName registry
          true isLiquidTokenTransfer = .ok .ForeignAssets)
    ∧ (foreignAssetMultiLocationIsInRegistry registry specName multiLocationStr = false →
        client.foreignAssetsMultiLocationExists multiLocationStr = false →
        checkLocalTxInput client [multiLocationStr] amounts specName registry
          true isLiquidTokenTransfer =
          .error (.base ⟨"MultiLocation " ++ multiLocationStr ++ " not found",
            .AssetNotFound⟩)) := by
  refine ⟨fun h1 => ?_, fun h1 h2 => ?_, fun h1 h2 => ?_⟩
  · unfold checkLocalTxInput
    simp [hlen, h1]
  · unfold checkLocalTxInput
    simp [hlen, h1, h2]
  · unfold checkLocalTxInput
    simp [hlen, h1, h2]

/-- C8 witness: a multi-location absent from the registry table and
denied by the live query fails with `AssetNotFound`. -/
theorem checkLocalTxInput_foreign_resolution_witness :
    checkLocalTxInput demoClient ["locX"] ["1000"] "spec" demoRegistry true false =
      .error (.base ⟨"MultiLocation " ++ "locX" ++ " not found", .AssetNotFound⟩) :=
  (checkLocalTxInput_foreign_resolution demoClient demoRegistry "spec" "locX"
    ["1000"] false rfl).2.2 (by decide) rfl

/-- C1: a single-asset, non-foreign, non-liquid call whose assetId is not
a native token, is not in the Registry's assets table (neither as an id
key nor as a symbol), and is not confirmed by any live chain query
(the assets-pallet query answers `None` and the chain knows no integer
id for the symbol) fails with `AssetNotFound`: no success value is
returned once every resolution path — Registry, then live chain — is
exhausted. -/
theorem checkLocalTxInput_exhausted_asset_not_found (client : ChainClient)
    (registry : Registry) (specName assetId : String) (amounts : List String)
    (info : ChainInfo)
    (hlen : amounts.length = 1)
    (hinfo : List.lookup (registry.chainIdOfSpecName specName)
        registry.currentRelayRegistry = some info)
    (hnative : info.tokens.find?
        (fun token => jsToLower token == jsToLower assetId) = none)
    (hkeys : (info.assetsInfo.map Prod.fst).find?
        (fun asset => jsToLower asset == jsToLower assetId) = none)
    (hsymbols : info.assetsInfo.find?
        (fun p => jsToLower p.2 == jsToLower assetId) = none)
    (hpallet : client.assetsAsset assetId = none)
    (hchainid : client.chainSymbolToId assetId = none) :
    throwsKind .AssetNotFound
      (checkLocalTxInput client [assetId] amounts specName registry false false) =
      true := by
  unfold checkLocalTxInput
  by_cases hn : jsParseIntIsNaN assetId
  · simp [hlen, hinfo, hnative, hn, getAssetHubAssetId, hsymbols, hchainid,
      throwsKind]
  · simp [hlen, hinfo, hnative, hn, hkeys, hpallet, throwsKind]

/-- C1 witness: the integer assetId `"999999"`, unknown to the registry
and reported absent by the chain, fails with `AssetNotFound`. -/
theorem checkLocalTxInput_exhausted_asset_not_found_witness :
    throwsKind .AssetNotFound
      (checkLocalTxInput demoClient ["999999"] ["1000"] "spec" demoRegistry
        false false) = true :=
  checkLocalTxInput_exhausted_asset_not_found demoClient demoRegistry "spec"
    "999999" ["1000"] demoInfo rfl rfl (by decide) (by decide) (by decide)
    rfl rfl
